import Mathlib

/-!
Shallow embedding of the position-sizing stage of the `pysystemtrade`
backtesting framework (`systems/positionsizing.py`) together with the
demand-driven, per-key memoising cache it is built on.

The stage's own code (its accessor methods and their local compute
closures) is embedded faithfully from `systems/positionsizing.py`.
The helpers it imports (`syscore.objects.calc_or_cache` and `ALL_KEYNAME`,
`syscore.pdutils.multiply_df_single_column`,
`syscore.dateutils.ROOT_BDAYS_INYEAR`, `systems.defaults.system_defaults`,
and the stage-invalidation operation) are not part of the provided
sources; each is modelled from the specification and carries a doc
comment saying so.

Conventions of the embedding:
* a pandas `Tx1 DataFrame` over a fixed date index becomes a
  `List (Option ℚ)`; `none` is `NaN` / a missing date, machine floats
  are modelled as exact rationals;
* the mutable `system` object holding the cache becomes an explicit
  `CacheState` threaded through every accessor; a Python exception
  becomes the `Except.error` branch, so an accessor has type
  `CacheState → Except String α × CacheState` (state mutation survives
  an exception, as it does in Python);
* the cache state additionally carries an invocation counter per
  `(attribute, key)` slot — the "counting stub" that the specification's
  testable-properties section asks for — bumped exactly when the
  resolver actually invokes a compute function.
-/

namespace PySys

/-- A Tx1 time series over a fixed shared date index; `none` models `NaN`
(a missing date in the underlying pandas index). -/
def Series : Type := List (Option ℚ)

instance : DecidableEq Series := by
  unfold Series
  infer_instance

/-- Modelled from the spec: forward-fill ("carrying the last known value of
a series forward across missing dates before a combining operation",
glossary of the spec).  The helper carries the last seen value. -/
def ffillFrom : Option ℚ → List (Option ℚ) → List (Option ℚ)
  | _, [] => []
  | _, some v :: rest => some v :: ffillFrom (some v) rest
  | last, none :: rest => last :: ffillFrom last rest

/-- Forward-fill a whole series starting with no previous observation. -/
def ffill_series (s : Series) : Series := ffillFrom none s

/-- Elementwise combination of two aligned series; a missing value on
either side yields a missing value (NaN propagation). -/
def zipSeries (f : ℚ → ℚ → ℚ) : Series → Series → Series
  | [], _ => []
  | _, [] => []
  | a :: xs, b :: ys =>
      (match a, b with
       | some a, some b => some (f a b)
       | _, _ => none) :: zipSeries f xs ys

/-- Modelled from the spec: `syscore.pdutils.multiply_df_single_column`
(not among the provided sources).  "Every binary series combination
specifies, per operand, whether missing dates are forward-filled before
the operation"; after the optional per-operand forward fill the two
columns are multiplied elementwise. -/
def multiply_df_single_column (x y : Series) (ffill : Bool × Bool) : Series :=
  let x2 := if ffill.1 then ffill_series x else x
  let y2 := if ffill.2 then ffill_series y else y
  zipSeries (fun a b => a * b) x2 y2

/-- Multiply every present entry of a series by a scalar (pandas
`scalar * df`); `NaN` stays `NaN`. -/
def scale_series (c : ℚ) (s : Series) : Series :=
  s.map (Option.map (fun v => c * v))

/-- Divide a scalar by a series elementwise (pandas `scalar / df`);
`NaN` stays `NaN`. -/
def scalar_div_series (c : ℚ) (s : Series) : Series :=
  s.map (Option.map (fun v => c / v))

/-- Divide every present entry of a series by a scalar (pandas
`df / scalar`); `NaN` stays `NaN`. -/
def series_div_scalar (s : Series) (c : ℚ) : Series :=
  s.map (Option.map (fun v => v / c))

/-- Modelled from the spec: `syscore.dateutils.ROOT_BDAYS_INYEAR` (not
among the provided sources), "sqrt(business_days_per_year)" with 256
business days per year, hence 16. -/
def ROOT_BDAYS_INYEAR : ℚ := 16

/-- Modelled from the spec: `syscore.objects.ALL_KEYNAME` (not among the
provided sources), the sentinel all-instruments cache key used for
values that are not instrument-specific. -/
def ALL_KEYNAME : String := "all"

/-- The dict returned by `get_daily_cash_vol_target`
(`vol_target_dict` in `systems/positionsizing.py`). -/
structure VolTargetDict where
  base_currency : String
  percentage_vol_target : ℚ
  notional_trading_capital : ℚ
  annual_cash_vol_target : ℚ
  daily_cash_vol_target : ℚ
deriving DecidableEq

/-- A value stored in the cache: either a time series or the vol-target
dict (the two result shapes the position-sizing stage caches). -/
inductive CValue where
  | ser (s : Series)
  | vt (d : VolTargetDict)
deriving DecidableEq

/-- The mutable cache carried by the shared parent `system` object:
`store` maps `(attribute_name, key)` to the cached value, and `count`
is the instrumentation counter — how many times the resolver has
invoked a compute function for that slot (the specification's "counting
stub substituted for `compute_fn`"). -/
structure CacheState where
  store : String → String → Option CValue
  count : String → String → Nat

/-- The cache state of a freshly created system: nothing cached, no
compute function ever invoked. -/
def emptyState : CacheState := ⟨fun _ _ => none, fun _ _ => 0⟩

/-- Write a value into the cache slot `(attr, key)`. -/
def set (st : CacheState) (attr key : String) (v : CValue) : CacheState :=
  { st with store := fun a k => if a = attr ∧ k = key then some v else st.store a k }

/-- Record one invocation of the compute function of slot `(attr, key)`. -/
def bump (st : CacheState) (attr key : String) : CacheState :=
  { st with count := fun a k => if a = attr ∧ k = key then st.count a k + 1 else st.count a k }

/-- A stateful, fallible computation over the shared cache: the shape of
every accessor of the stage.  Mutations made before a failure survive
it, as they do for Python's in-place mutation of `system`. -/
def M (α : Type) : Type := CacheState → Except String α × CacheState

/-- Modelled from the spec: `syscore.objects.calc_or_cache` (not among
the provided sources).  "Look up `(attribute_name, key)` in the context's
cache store.  If present, return it unchanged (cache hit — no
recomputation, no side effects).  If absent, invoke `compute_fn` exactly
once, store the result under `(attribute_name, key)`, and return it."
On failure of `compute_fn` nothing is stored ("the resolver must NOT
cache a partial or error value").  The invocation counter of the slot is
bumped exactly when `compute_fn` is invoked. -/
def calc_or_cache (attr key : String) (computeFn : M CValue) : M CValue := fun st =>
  match st.store attr key with
  | some v => (Except.ok v, st)
  | none =>
      let r := computeFn (bump st attr key)
      match r.1 with
      | Except.ok v => (Except.ok v, set r.2 attr key v)
      | Except.error e => (Except.error e, r.2)

/-- Project a cached value expected to be a series (the Python code is
duck-typed; in every reachable state the branch mismatch cannot occur). -/
def asSer (m : M CValue) : M Series := fun st =>
  let r := m st
  match r.1 with
  | Except.ok (CValue.ser s) => (Except.ok s, r.2)
  | Except.ok (CValue.vt _) => (Except.error "expected a series", r.2)
  | Except.error e => (Except.error e, r.2)

/-- Project a cached value expected to be the vol-target dict. -/
def asVT (m : M CValue) : M VolTargetDict := fun st =>
  let r := m st
  match r.1 with
  | Except.ok (CValue.vt d) => (Except.ok d, r.2)
  | Except.ok (CValue.ser _) => (Except.error "expected a vol target dict", r.2)
  | Except.error e => (Except.error e, r.2)

/-- Wrap a series-valued computation into a cache-value computation
(the adaptation an accessor performs around its compute closure). -/
def serCompute (m : M Series) : M CValue := fun st =>
  let r := m st
  (r.1.map CValue.ser, r.2)

/-- Modelled from the spec: `systems.defaults.system_defaults` (not among
the provided sources) — the compiled defaults dict, "a simple key
lookup"; the four keys the stage reads. -/
structure Defaults where
  percentage_vol_target : ℚ
  notional_trading_capital : ℚ
  base_currency : String
  average_absolute_forecast : ℚ

/-- The configuration collaborator (`system.config.parameters`), out of
scope of the core and "consumed as a simple key lookup"; each read can
fail with an arbitrary Python exception (missing key, missing
`parameters` attribute, ...), modelled as `Except.error`. -/
structure SysConfig where
  percentage_vol_target : Except String ℚ
  notional_trading_capital : Except String ℚ
  base_currency : Except String String
  average_absolute_forecast : Except String ℚ

/-- The shared parent context seen from the position-sizing stage: the
configuration, the compiled defaults, and the external collaborators
(sibling stages and the data object), each "consumed as pure functions
of an instrument code returning a time-indexed series or scalar"
which may fail for missing upstream data. -/
structure Sys where
  config : SysConfig
  defaults : Defaults
  combForecast_get_combined_forecast : String → Except String Series
  rawdata_get_daily_percentage_volatility : String → Except String Series
  rawdata_daily_denominator_price : String → Except String Series
  data_get_value_of_block_price_move : String → Except String ℚ
  data_get_fx_for_currency : String → String → Except String Series

/-- The `PositionSizing` stage instance: the three optionally-overridden
constructor parameters (`__init__`, `systems/positionsizing.py:61-63`). -/
structure PositionSizing where
  passed_percentage_vol_target : Option ℚ
  passed_notional_trading_capital : Option ℚ
  passed_base_currency : Option String

/-- The stage's volatile cache attributes (`delete_on_recalc`,
`systems/positionsizing.py:51-52`). -/
def delete_on_recalc : List String :=
  ["_block_value", "_instrument_currency_vol", "_instrument_value_vol",
   "_vol_scalar", "_subsys_position", "_fx_rate"]

/-- The stage's persistent cache attributes (`dont_delete` /
`_dont_recalc`, `systems/positionsizing.py:54`). -/
def dont_recalc : List String := ["_vol_target"]

/-- Modelled from the spec: `invalidate_stage` (§4.4 of the spec, not
among the provided sources): "clears every cache entry whose attribute is
in that stage's `volatile` list, for all keys; entries whose attribute is
in `persistent` are untouched".  Invocation counters are instrumentation
and are left alone. -/
def invalidate_stage (volatile : List String) (st : CacheState) : CacheState :=
  { st with store := fun a k => if a ∈ volatile then none else st.store a k }

/-- `get_combined_forecast` (`systems/positionsizing.py:65-88`): a KEY
INPUT pass-through, `return self.parent.combForecast.get_combined_forecast
(instrument_code)` — no compute closure, no cache slot of its own. -/
def get_combined_forecast (sys : Sys) (instrument_code : String) : M Series := fun st =>
  (sys.combForecast_get_combined_forecast instrument_code, st)

/-- `get_price_volatility` (`systems/positionsizing.py:90-115`): a KEY
INPUT pass-through to `self.parent.rawdata.get_daily_percentage_volatility`
— no compute closure, no cache slot of its own. -/
def get_price_volatility (sys : Sys) (instrument_code : String) : M Series := fun st =>
  (sys.rawdata_get_daily_percentage_volatility instrument_code, st)

/-- `get_instrument_sizing_data` (`systems/positionsizing.py:120-151`):
a KEY INPUT pass-through returning the pair of the underlying price from
`rawdata` and the value of a block price move from `data` — no compute
closure, no cache slot of its own. -/
def get_instrument_sizing_data (sys : Sys) (instrument_code : String) :
    M (Series × ℚ) := fun st =>
  match sys.rawdata_daily_denominator_price instrument_code with
  | Except.error e => (Except.error e, st)
  | Except.ok underlying_price =>
      match sys.data_get_value_of_block_price_move instrument_code with
      | Except.error e => (Except.error e, st)
      | Except.ok value_of_price_move =>
          (Except.ok (underlying_price, value_of_price_move), st)

/-- The local compute closure `_get_vol_target` of
`get_daily_cash_vol_target` (`systems/positionsizing.py:190-223`): for
each of the three parameters, a non-`None` passed value wins; otherwise
the `try: system.config.parameters[...] except:` read, any failure of
which falls back to `system_defaults`; then
`annual_cash_vol_target = notional_trading_capital * percentage_vol_target
/ 100.0` and `daily_cash_vol_target = annual_cash_vol_target /
ROOT_BDAYS_INYEAR`. -/
def _get_vol_target (system : Sys) (this_subsystem : PositionSizing) : VolTargetDict :=
  let percentage_vol_target :=
    match this_subsystem.passed_percentage_vol_target with
    | some v => v
    | none =>
        match system.config.percentage_vol_target with
        | Except.ok v => v
        | Except.error _ => system.defaults.percentage_vol_target
  let notional_trading_capital :=
    match this_subsystem.passed_notional_trading_capital with
    | some v => v
    | none =>
        match system.config.notional_trading_capital with
        | Except.ok v => v
        | Except.error _ => system.defaults.notional_trading_capital
  let base_currency :=
    match this_subsystem.passed_base_currency with
    | some v => v
    | none =>
        match system.config.base_currency with
        | Except.ok v => v
        | Except.error _ => system.defaults.base_currency
  let annual_cash_vol_target := notional_trading_capital * percentage_vol_target / 100
  let daily_cash_vol_target := annual_cash_vol_target / ROOT_BDAYS_INYEAR
  { base_currency := base_currency
    percentage_vol_target := percentage_vol_target
    notional_trading_capital := notional_trading_capital
    annual_cash_vol_target := annual_cash_vol_target
    daily_cash_vol_target := daily_cash_vol_target }

/-- The compute closure of the `_vol_target` slot wrapped as a
cache-value computation (it never fails and touches no other slot). -/
def vol_target_compute (system : Sys) (this_subsystem : PositionSizing) : M CValue :=
  fun st => (Except.ok (CValue.vt (_get_vol_target system this_subsystem)), st)

/-- `get_daily_cash_vol_target` (`systems/positionsizing.py:155-226`):
`calc_or_cache(self.parent, '_vol_target', ALL_KEYNAME, _get_vol_target,
self)`. -/
def get_daily_cash_vol_target (sys : Sys) (this_subsystem : PositionSizing) :
    M VolTargetDict :=
  asVT (calc_or_cache "_vol_target" ALL_KEYNAME (vol_target_compute sys this_subsystem))

/-- The local compute closure `_get_fx_rate` of `get_fx_rate`
(`systems/positionsizing.py:251-255`): read the base currency out of
`get_daily_cash_vol_target()` and ask the data collaborator for the FX
series for that currency. -/
def _get_fx_rate (system : Sys) (instrument_code : String)
    (this_subsystem : PositionSizing) : M Series := fun st =>
  let r := get_daily_cash_vol_target system this_subsystem st
  match r.1 with
  | Except.ok vt => (system.data_get_fx_for_currency instrument_code vt.base_currency, r.2)
  | Except.error e => (Except.error e, r.2)

/-- `get_fx_rate` (`systems/positionsizing.py:229-259`):
`calc_or_cache(self.parent, '_fx_rate', instrument_code, _get_fx_rate,
self)`. -/
def get_fx_rate (sys : Sys) (this_subsystem : PositionSizing)
    (instrument_code : String) : M Series :=
  asSer (calc_or_cache "_fx_rate" instrument_code
    (serCompute (_get_fx_rate sys instrument_code this_subsystem)))

/-- The local compute closure `_get_block_value` of `get_block_value`
(`systems/positionsizing.py:282-287`):
`block_value = 0.01 * underlying_price * value_of_price_move`. -/
def _get_block_value (system : Sys) (instrument_code : String)
    (this_subsystem : PositionSizing) : M Series := fun st =>
  let r := get_instrument_sizing_data system instrument_code st
  match r.1 with
  | Except.ok p =>
      (Except.ok (scale_series (1 / 100 * p.2) p.1), r.2)
  | Except.error e => (Except.error e, r.2)

/-- `get_block_value` (`systems/positionsizing.py:262-290`):
`calc_or_cache(self.parent, '_block_value', instrument_code,
_get_block_value, self)`. -/
def get_block_value (sys : Sys) (this_subsystem : PositionSizing)
    (instrument_code : String) : M Series :=
  asSer (calc_or_cache "_block_value" instrument_code
    (serCompute (_get_block_value sys instrument_code this_subsystem)))

/-- The local compute closure `_get_instrument_currency_vol` of
`get_instrument_currency_vol` (`systems/positionsizing.py:312-320`):
`multiply_df_single_column(block_value, daily_perc_vol,
ffill=(True, False))` — the block-value operand is forward-filled, the
volatility operand is not. -/
def _get_instrument_currency_vol (system : Sys) (instrument_code : String)
    (this_subsystem : PositionSizing) : M Series := fun st =>
  let r := get_block_value system this_subsystem instrument_code st
  match r.1 with
  | Except.ok block_value =>
      let r2 := get_price_volatility system instrument_code r.2
      match r2.1 with
      | Except.ok daily_perc_vol =>
          (Except.ok (multiply_df_single_column block_value daily_perc_vol
            (true, false)), r2.2)
      | Except.error e => (Except.error e, r2.2)
  | Except.error e => (Except.error e, r.2)

/-- `get_instrument_currency_vol` (`systems/positionsizing.py:293-324`):
`calc_or_cache(self.parent, '_instrument_currency_vol', instrument_code,
_get_instrument_currency_vol, self)`. -/
def get_instrument_currency_vol (sys : Sys) (this_subsystem : PositionSizing)
    (instrument_code : String) : M Series :=
  asSer (calc_or_cache "_instrument_currency_vol" instrument_code
    (serCompute (_get_instrument_currency_vol sys instrument_code this_subsystem)))

/-- The local compute closure `_get_instrument_value_vol` of
`get_instrument_value_vol` (`systems/positionsizing.py:345-353`):
`multiply_df_single_column(instr_ccy_vol, fx_rate, ffill=(False, True))`
— the FX operand is forward-filled, the currency-vol operand is not. -/
def _get_instrument_value_vol (system : Sys) (instrument_code : String)
    (this_subsystem : PositionSizing) : M Series := fun st =>
  let r := get_instrument_currency_vol system this_subsystem instrument_code st
  match r.1 with
  | Except.ok instr_ccy_vol =>
      let r2 := get_fx_rate system this_subsystem instrument_code r.2
      match r2.1 with
      | Except.ok fx_rate =>
          (Except.ok (multiply_df_single_column instr_ccy_vol fx_rate
            (false, true)), r2.2)
      | Except.error e => (Except.error e, r2.2)
  | Except.error e => (Except.error e, r.2)

/-- `get_instrument_value_vol` (`systems/positionsizing.py:326-357`):
`calc_or_cache(self.parent, '_instrument_value_vol', instrument_code,
_get_instrument_value_vol, self)`. -/
def get_instrument_value_vol (sys : Sys) (this_subsystem : PositionSizing)
    (instrument_code : String) : M Series :=
  asSer (calc_or_cache "_instrument_value_vol" instrument_code
    (serCompute (_get_instrument_value_vol sys instrument_code this_subsystem)))

/-- The local compute closure `_get_volatility_scalar` of
`get_volatility_scalar` (`systems/positionsizing.py:381-389`):
`vol_scalar = cash_vol_target / instr_value_vol`, a plain elementwise
scalar-over-series division with no forward-fill. -/
def _get_volatility_scalar (system : Sys) (instrument_code : String)
    (this_subsystem : PositionSizing) : M Series := fun st =>
  let r := get_instrument_value_vol system this_subsystem instrument_code st
  match r.1 with
  | Except.ok instr_value_vol =>
      let r2 := get_daily_cash_vol_target system this_subsystem r.2
      match r2.1 with
      | Except.ok vt =>
          (Except.ok (scalar_div_series vt.daily_cash_vol_target instr_value_vol), r2.2)
      | Except.error e => (Except.error e, r2.2)
  | Except.error e => (Except.error e, r.2)

/-- `get_volatility_scalar` (`systems/positionsizing.py:361-392`):
`calc_or_cache(self.parent, '_vol_scalar', instrument_code,
_get_volatility_scalar, self)`. -/
def get_volatility_scalar (sys : Sys) (this_subsystem : PositionSizing)
    (instrument_code : String) : M Series :=
  asSer (calc_or_cache "_vol_scalar" instrument_code
    (serCompute (_get_volatility_scalar sys instrument_code this_subsystem)))

/-- The local compute closure `_get_subsys_position` of
`get_subsys_position` (`systems/positionsizing.py:417-427`):
`avg_abs_forecast = system_defaults['average_absolute_forecast']` (read
straight from the compiled defaults, not from config or a passed
parameter), then `multiply_df_single_column(vol_scalar, forecast,
ffill=(True, False)) / avg_abs_forecast`. -/
def _get_subsys_position (system : Sys) (instrument_code : String)
    (this_subsystem : PositionSizing) : M Series := fun st =>
  let avg_abs_forecast := system.defaults.average_absolute_forecast
  let r := get_volatility_scalar system this_subsystem instrument_code st
  match r.1 with
  | Except.ok vol_scalar =>
      let r2 := get_combined_forecast system instrument_code r.2
      match r2.1 with
      | Except.ok forecast =>
          (Except.ok (series_div_scalar
            (multiply_df_single_column vol_scalar forecast (true, false))
            avg_abs_forecast), r2.2)
      | Except.error e => (Except.error e, r2.2)
  | Except.error e => (Except.error e, r.2)

/-- `get_subsys_position` (`systems/positionsizing.py:395-431`):
`calc_or_cache(self.parent, '_subsys_position', instrument_code,
_get_subsys_position, self)` — the stage's KEY OUTPUT. -/
def get_subsys_position (sys : Sys) (this_subsystem : PositionSizing)
    (instrument_code : String) : M Series :=
  asSer (calc_or_cache "_subsys_position" instrument_code
    (serCompute (_get_subsys_position sys instrument_code this_subsystem)))

/-- Spec-side definition (for the refinement claim about parameter
resolution): the spec's three-tier fallback, "explicit override beats
configuration beats compiled default". -/
def three_tier_fallback {α : Type} (override : Option α) (cfg : Except String α)
    (dflt : α) : α :=
  match override with
  | some v => v
  | none =>
      match cfg with
      | Except.ok v => v
      | Except.error _ => dflt

/-- Replace only the configuration's `average_absolute_forecast` entry,
leaving every other part of the system untouched (used to state that the
stage never reads this configuration key). -/
def set_config_avg_abs (sys : Sys) (c : Except String ℚ) : Sys :=
  { sys with config := { sys.config with average_absolute_forecast := c } }

/-- A stage instance created with no constructor overrides,
`PositionSizing()`. -/
def subsys0 : PositionSizing := ⟨none, none, none⟩

/-- A stage instance created with `percentage_vol_target=10` and
`notional_trading_capital=1000000` passed to the constructor. -/
def subsysC : PositionSizing := ⟨some 10, some 1000000, none⟩

/-- A configuration in which every parameter read raises (e.g. the config
has no `parameters` attribute at all). -/
def configErr : SysConfig :=
  ⟨Except.error "no parameters", Except.error "no parameters",
   Except.error "no parameters", Except.error "no parameters"⟩

/-- Concrete compiled defaults used by the test scenarios. -/
def defaults0 : Defaults := ⟨16, 1000000, "USD", 10⟩

/-- Scenario for the diamond-shaped dependency: single-date series,
price 100, block move 100, daily volatility 1%, FX 2, forecast 10; all
configuration reads fail. -/
def sysD : Sys where
  config := configErr
  defaults := defaults0
  combForecast_get_combined_forecast := fun _ => Except.ok [some 10]
  rawdata_get_daily_percentage_volatility := fun _ => Except.ok [some (1/100)]
  rawdata_daily_denominator_price := fun _ => Except.ok [some 100]
  data_get_value_of_block_price_move := fun _ => Except.ok 100
  data_get_fx_for_currency := fun _ _ => Except.ok [some 2]

/-- Like `sysD` but the FX data is missing: every FX lookup fails
(missing upstream data). -/
def sysFail : Sys where
  config := configErr
  defaults := defaults0
  combForecast_get_combined_forecast := fun _ => Except.ok [some 10]
  rawdata_get_daily_percentage_volatility := fun _ => Except.ok [some (1/100)]
  rawdata_daily_denominator_price := fun _ => Except.ok [some 100]
  data_get_value_of_block_price_move := fun _ => Except.ok 100
  data_get_fx_for_currency := fun _ _ => Except.error "no fx data"

/-- Cache state after computing `get_instrument_value_vol("EDOLLAR")` on
a fresh system (first half of the diamond). -/
def stD1 : CacheState := (get_instrument_value_vol sysD subsys0 "EDOLLAR" emptyState).2

/-- Cache state after additionally computing
`get_volatility_scalar("EDOLLAR")` (second half of the diamond: both
walks reach `_instrument_currency_vol`, `_fx_rate` and `_vol_target`). -/
def stD2 : CacheState := (get_volatility_scalar sysD subsys0 "EDOLLAR" stD1).2

/-- Two-date scenario exercising every forward-fill pairing: instrument
"X" has a price gap at d2 and an FX gap at d2 but full volatility;
instrument "Y" has full prices and FX but a volatility gap at d2. -/
def sysC6 : Sys where
  config := configErr
  defaults := defaults0
  combForecast_get_combined_forecast := fun _ => Except.ok [some 10, some 10]
  rawdata_get_daily_percentage_volatility := fun code =>
    if code = "X" then Except.ok [some (1/100), some (2/100)]
    else Except.ok [some (1/100), none]
  rawdata_daily_denominator_price := fun code =>
    if code = "X" then Except.ok [some 100, none]
    else Except.ok [some 100, some 100]
  data_get_value_of_block_price_move := fun _ => Except.ok 100
  data_get_fx_for_currency := fun code _ =>
    if code = "X" then Except.ok [some 2, none]
    else Except.ok [some 2, some 2]

/-- The spec's end-to-end scenario: instrument value volatility 5.97
(price 100, block move 100, daily volatility 0.0597, FX 1), combined
forecast 7.62, with `percentage_vol_target=10` and
`notional_trading_capital=1000000` passed (daily cash vol target 6250). -/
def sysC7 : Sys where
  config := configErr
  defaults := defaults0
  combForecast_get_combined_forecast := fun _ => Except.ok [some (762/100)]
  rawdata_get_daily_percentage_volatility := fun _ => Except.ok [some (597/10000)]
  rawdata_daily_denominator_price := fun _ => Except.ok [some 100]
  data_get_value_of_block_price_move := fun _ => Except.ok 100
  data_get_fx_for_currency := fun _ _ => Except.ok [some 1]

deriving instance DecidableEq for Except

attribute [local semireducible] Rat.mul Rat.inv Rat.add Rat.sub

/-- Writing a slot makes its lookup return the written value. -/
theorem set_store_self (st : CacheState) (attr key : String) (v : CValue) :
    (set st attr key v).store attr key = some v := by
  simp [set]

/-- A cache hit returns the stored value and leaves the state (both the
store and every invocation counter) untouched. -/
theorem calc_or_cache_hit (attr key : String) (f : M CValue) (st : CacheState)
    (v : CValue) (h : st.store attr key = some v) :
    calc_or_cache attr key f st = (Except.ok v, st) := by
  simp [calc_or_cache, h]

/-- After a successful resolution, the returned value is stored under the
slot. -/
theorem calc_or_cache_stores (attr key : String) (f : M CValue) (st st2 : CacheState)
    (v : CValue) (h : calc_or_cache attr key f st = (Except.ok v, st2)) :
    st2.store attr key = some v := by
  unfold calc_or_cache at h
  cases hs : st.store attr key with
  | some w =>
      rw [hs] at h
      simp only [Prod.mk.injEq, Except.ok.injEq] at h
      rw [← h.2, hs, h.1]
  | none =>
      rw [hs] at h
      simp only at h
      cases hr : (f (bump st attr key)).1 with
      | ok u =>
          rw [hr] at h
          simp only [Prod.mk.injEq, Except.ok.injEq] at h
          rw [← h.2, ← h.1]
          exact set_store_self _ _ _ _
      | error e =>
          rw [hr] at h
          simp at h

/-- A series-valued accessor built from the resolver stores its result
under its own attribute, and a repeated call returns the stored value
with the state unchanged. -/
theorem asSer_calc_round (attr key : String) (f : M CValue) (st st2 : CacheState)
    (s : Series) (h : asSer (calc_or_cache attr key f) st = (Except.ok s, st2)) :
    st2.store attr key = some (CValue.ser s)
    ∧ asSer (calc_or_cache attr key f) st2 = (Except.ok s, st2) := by
  unfold asSer at h
  simp only [] at h
  cases hr : (calc_or_cache attr key f st).1 with
  | error e => rw [hr] at h; simp at h
  | ok v =>
      cases v with
      | vt d => rw [hr] at h; simp at h
      | ser t =>
          rw [hr] at h
          simp only [Prod.mk.injEq, Except.ok.injEq] at h
          obtain ⟨h1, h2⟩ := h
          have hfull : calc_or_cache attr key f st = (Except.ok (CValue.ser s), st2) := by
            rw [← Prod.mk.eta (p := calc_or_cache attr key f st), hr, h1, h2]
          have hstore : st2.store attr key = some (CValue.ser s) :=
            calc_or_cache_stores _ _ _ _ _ _ hfull
          refine ⟨hstore, ?_⟩
          unfold asSer
          simp only []
          rw [calc_or_cache_hit _ _ _ _ _ hstore]

/-- The vol-target analogue of `asSer_calc_round`. -/
theorem asVT_calc_round (attr key : String) (f : M CValue) (st st2 : CacheState)
    (d : VolTargetDict) (h : asVT (calc_or_cache attr key f) st = (Except.ok d, st2)) :
    st2.store attr key = some (CValue.vt d)
    ∧ asVT (calc_or_cache attr key f) st2 = (Except.ok d, st2) := by
  unfold asVT at h
  simp only [] at h
  cases hr : (calc_or_cache attr key f st).1 with
  | error e => rw [hr] at h; simp at h
  | ok v =>
      cases v with
      | ser t => rw [hr] at h; simp at h
      | vt d2 =>
          rw [hr] at h
          simp only [Prod.mk.injEq, Except.ok.injEq] at h
          obtain ⟨h1, h2⟩ := h
          have hfull : calc_or_cache attr key f st = (Except.ok (CValue.vt d), st2) := by
            rw [← Prod.mk.eta (p := calc_or_cache attr key f st), hr, h1, h2]
          have hstore : st2.store attr key = some (CValue.vt d) :=
            calc_or_cache_stores _ _ _ _ _ _ hfull
          refine ⟨hstore, ?_⟩
          unfold asVT
          simp only []
          rw [calc_or_cache_hit _ _ _ _ _ hstore]

/-- Unfolding of a first access to `get_subsys_position`: when the slot is
empty, the volatility scalar resolves to `vs` and the combined forecast to
`fc`, the accessor returns `(vs ⊛ fc) / average_absolute_forecast` (scalar
forward-filled, forecast not) and stores it under
`('_subsys_position', code)`. -/
theorem subsys_position_run (sys : Sys) (subsys : PositionSizing) (code : String)
    (st : CacheState) (vs fc : Series)
    (hsp : st.store "_subsys_position" code = none)
    (hvs : (get_volatility_scalar sys subsys code (bump st "_subsys_position" code)).1
        = Except.ok vs)
    (hfc : sys.combForecast_get_combined_forecast code = Except.ok fc) :
    get_subsys_position sys subsys code st
      = (Except.ok (series_div_scalar (multiply_df_single_column vs fc (true, false))
           sys.defaults.average_absolute_forecast),
         set (get_volatility_scalar sys subsys code (bump st "_subsys_position" code)).2
           "_subsys_position" code
           (CValue.ser (series_div_scalar (multiply_df_single_column vs fc (true, false))
             sys.defaults.average_absolute_forecast))) := by
  simp only [get_subsys_position, asSer, serCompute, calc_or_cache, _get_subsys_position,
    get_combined_forecast, hsp, hvs, hfc, Except.map]

/-- C1: for every cache attribute and every key, once a resolution has
succeeded, a second or later access with the same `(attribute_name, key)`
returns the stored value unchanged — identical state, so no compute
function is re-invoked and no counter moves; and in the diamond
(`get_instrument_value_vol` and `get_volatility_scalar` both reaching
`get_instrument_currency_vol` and `get_fx_rate` for `"EDOLLAR"`), after
running both accessors every shared intermediate has been computed
exactly once. -/
theorem calc_or_cache_memoization_and_diamond :
    (∀ (attr key : String) (f : M CValue) (st st2 : CacheState) (v : CValue),
      calc_or_cache attr key f st = (Except.ok v, st2) →
      calc_or_cache attr key f st2 = (Except.ok v, st2))
    ∧ stD2.count "_instrument_currency_vol" "EDOLLAR" = 1
    ∧ stD2.count "_fx_rate" "EDOLLAR" = 1
    ∧ stD2.count "_instrument_value_vol" "EDOLLAR" = 1
    ∧ stD2.count "_vol_target" ALL_KEYNAME = 1
    ∧ stD2.count "_block_value" "EDOLLAR" = 1
    ∧ stD2.count "_vol_scalar" "EDOLLAR" = 1 := by
  refine ⟨?_, by decide, by decide, by decide, by decide, by decide, by decide⟩
  intro attr key f st st2 v h
  exact calc_or_cache_hit attr key f st2 v (calc_or_cache_stores attr key f st st2 v h)

/-- Witness for C1: the memoization part applied to the `_vol_target`
slot right after its first resolution on the diamond scenario. -/
theorem calc_or_cache_memoization_witness :
    calc_or_cache "_vol_target" ALL_KEYNAME (vol_target_compute sysD subsys0)
        (set (bump emptyState "_vol_target" ALL_KEYNAME) "_vol_target" ALL_KEYNAME
          (CValue.vt (_get_vol_target sysD subsys0)))
      = (Except.ok (CValue.vt (_get_vol_target sysD subsys0)),
         set (bump emptyState "_vol_target" ALL_KEYNAME) "_vol_target" ALL_KEYNAME
          (CValue.vt (_get_vol_target sysD subsys0))) :=
  calc_or_cache_memoization_and_diamond.1 "_vol_target" ALL_KEYNAME
    (vol_target_compute sysD subsys0) emptyState _ _ rfl

/-- C2: if the compute function of an empty `(attr, key)` slot fails on
first access, the resolver returns exactly the compute function's failure
and state — it stores nothing itself, so (as the compute function does
not write its own slot) the slot is still empty; a subsequent access
invokes the compute function afresh (through a fresh counter bump) and,
when it succeeds, stores and returns the fresh result. -/
theorem failure_not_cached_retry_fresh (attr key : String) (f g : M CValue)
    (st : CacheState) (e : String) (v : CValue)
    (h0 : st.store attr key = none)
    (h1 : (f (bump st attr key)).1 = Except.error e)
    (h2 : ((f (bump st attr key)).2).store attr key = none)
    (h3 : (g (bump (f (bump st attr key)).2 attr key)).1 = Except.ok v) :
    calc_or_cache attr key f st = (Except.error e, (f (bump st attr key)).2)
    ∧ (calc_or_cache attr key f st).2.store attr key = none
    ∧ calc_or_cache attr key g ((calc_or_cache attr key f st).2)
        = (Except.ok v, set (g (bump (f (bump st attr key)).2 attr key)).2 attr key v)
    ∧ (set (g (bump (f (bump st attr key)).2 attr key)).2 attr key v).store attr key
        = some v := by
  have hfail : calc_or_cache attr key f st = (Except.error e, (f (bump st attr key)).2) := by
    unfold calc_or_cache
    rw [h0]
    simp only [h1]
  refine ⟨hfail, ?_, ?_, set_store_self _ _ _ _⟩
  · rw [hfail]
    exact h2
  · rw [hfail]
    unfold calc_or_cache
    rw [h2]
    simp only [h3]

/-- Witness for C2: the `_fx_rate` compute closure of the stage fails on
a system with no FX data (the failure propagates, the slot stays empty),
then succeeds on retry once the FX data is available, caching `[2.0]`. -/
theorem failure_not_cached_retry_fresh_witness :
    calc_or_cache "_fx_rate" "EDOLLAR"
        (serCompute (_get_fx_rate sysFail "EDOLLAR" subsys0)) emptyState
      = (Except.error "no fx data",
         (serCompute (_get_fx_rate sysFail "EDOLLAR" subsys0)
           (bump emptyState "_fx_rate" "EDOLLAR")).2)
    ∧ (calc_or_cache "_fx_rate" "EDOLLAR"
        (serCompute (_get_fx_rate sysFail "EDOLLAR" subsys0)) emptyState).2.store
          "_fx_rate" "EDOLLAR" = none
    ∧ calc_or_cache "_fx_rate" "EDOLLAR"
        (serCompute (_get_fx_rate sysD "EDOLLAR" subsys0))
        ((calc_or_cache "_fx_rate" "EDOLLAR"
          (serCompute (_get_fx_rate sysFail "EDOLLAR" subsys0)) emptyState).2)
      = (Except.ok (CValue.ser [some 2]),
         set (serCompute (_get_fx_rate sysD "EDOLLAR" subsys0)
            (bump (serCompute (_get_fx_rate sysFail "EDOLLAR" subsys0)
              (bump emptyState "_fx_rate" "EDOLLAR")).2 "_fx_rate" "EDOLLAR")).2
          "_fx_rate" "EDOLLAR" (CValue.ser [some 2]))
    ∧ (set (serCompute (_get_fx_rate sysD "EDOLLAR" subsys0)
            (bump (serCompute (_get_fx_rate sysFail "EDOLLAR" subsys0)
              (bump emptyState "_fx_rate" "EDOLLAR")).2 "_fx_rate" "EDOLLAR")).2
          "_fx_rate" "EDOLLAR" (CValue.ser [some 2])).store "_fx_rate" "EDOLLAR"
        = some (CValue.ser [some 2]) :=
  failure_not_cached_retry_fresh "_fx_rate" "EDOLLAR"
    (serCompute (_get_fx_rate sysFail "EDOLLAR" subsys0))
    (serCompute (_get_fx_rate sysD "EDOLLAR" subsys0))
    emptyState "no fx data" (CValue.ser [some 2]) rfl rfl (by decide) (by decide)

/-- C3: invalidating the position-sizing stage empties every slot whose
attribute is in `delete_on_recalc` (for all keys) and leaves `_vol_target`
slots untouched; afterwards, re-accessing the persistent attribute is a
cache hit returning the previously cached object with no state change
(no recomputation), while re-accessing a volatile attribute invokes its
compute function and stores the fresh result. -/
theorem invalidate_stage_partition (st : CacheState) (a k k2 : String)
    (f g : M CValue) (v w : CValue)
    (ha : a ∈ delete_on_recalc)
    (hp : st.store "_vol_target" k2 = some v)
    (hg : (g (bump (invalidate_stage delete_on_recalc st) a k)).1 = Except.ok w) :
    (invalidate_stage delete_on_recalc st).store a k = none
    ∧ (invalidate_stage delete_on_recalc st).store "_vol_target" k2 = some v
    ∧ calc_or_cache "_vol_target" k2 f (invalidate_stage delete_on_recalc st)
        = (Except.ok v, invalidate_stage delete_on_recalc st)
    ∧ calc_or_cache a k g (invalidate_stage delete_on_recalc st)
        = (Except.ok w,
           set (g (bump (invalidate_stage delete_on_recalc st) a k)).2 a k w) := by
  have hvol : (invalidate_stage delete_on_recalc st).store "_vol_target" k2 = some v := by
    have hnot : "_vol_target" ∉ delete_on_recalc := by decide
    simp [invalidate_stage, hnot, hp]
  have hempty : (invalidate_stage delete_on_recalc st).store a k = none := by
    simp [invalidate_stage, ha]
  refine ⟨hempty, hvol, calc_or_cache_hit _ _ _ _ _ hvol, ?_⟩
  unfold calc_or_cache
  rw [hempty]
  simp only [hg]

/-- Witness for C3: invalidate after the diamond run; the `_fx_rate`
entry is gone and recomputes to `[2.0]`, the `_vol_target` entry is
still the originally resolved dict and is returned with no recomputation. -/
theorem invalidate_stage_partition_witness :
    (invalidate_stage delete_on_recalc stD2).store "_fx_rate" "EDOLLAR" = none
    ∧ (invalidate_stage delete_on_recalc stD2).store "_vol_target" ALL_KEYNAME
        = some (CValue.vt (_get_vol_target sysD subsys0))
    ∧ calc_or_cache "_vol_target" ALL_KEYNAME (vol_target_compute sysD subsys0)
        (invalidate_stage delete_on_recalc stD2)
        = (Except.ok (CValue.vt (_get_vol_target sysD subsys0)),
           invalidate_stage delete_on_recalc stD2)
    ∧ calc_or_cache "_fx_rate" "EDOLLAR"
        (serCompute (_get_fx_rate sysD "EDOLLAR" subsys0))
        (invalidate_stage delete_on_recalc stD2)
        = (Except.ok (CValue.ser [some 2]),
           set (serCompute (_get_fx_rate sysD "EDOLLAR" subsys0)
             (bump (invalidate_stage delete_on_recalc stD2) "_fx_rate" "EDOLLAR")).2
             "_fx_rate" "EDOLLAR" (CValue.ser [some 2])) :=
  invalidate_stage_partition stD2 "_fx_rate" "EDOLLAR" ALL_KEYNAME
    (vol_target_compute sysD subsys0)
    (serCompute (_get_fx_rate sysD "EDOLLAR" subsys0))
    (CValue.vt (_get_vol_target sysD subsys0)) (CValue.ser [some 2])
    (by decide) (by decide) (by decide)

/-- C4: on first access `get_daily_cash_vol_target` returns a dict (with
all five fields by type) satisfying `annual_cash_vol_target =
notional_trading_capital * percentage_vol_target / 100` and
`daily_cash_vol_target = annual_cash_vol_target / ROOT_BDAYS_INYEAR`
(sqrt of 256 business days), cached under the all-instruments sentinel in
the `_vol_target` slot; with `percentage_vol_target=10` and
`notional_trading_capital=1000000` passed, `daily_cash_vol_target = 6250`. -/
theorem daily_cash_vol_target_contents (sys : Sys) (subsys : PositionSizing)
    (st : CacheState) (h : st.store "_vol_target" ALL_KEYNAME = none) :
    ∃ vt : VolTargetDict,
      get_daily_cash_vol_target sys subsys st
        = (Except.ok vt,
           set (bump st "_vol_target" ALL_KEYNAME) "_vol_target" ALL_KEYNAME
             (CValue.vt vt))
      ∧ vt.annual_cash_vol_target
          = vt.notional_trading_capital * vt.percentage_vol_target / 100
      ∧ vt.daily_cash_vol_target = vt.annual_cash_vol_target / ROOT_BDAYS_INYEAR
      ∧ (subsys.passed_percentage_vol_target = some 10 →
         subsys.passed_notional_trading_capital = some 1000000 →
         vt.daily_cash_vol_target = 6250) := by
  refine ⟨_get_vol_target sys subsys, ?_, rfl, rfl, ?_⟩
  · unfold get_daily_cash_vol_target asVT calc_or_cache vol_target_compute
    rw [h]
  · intro h1 h2
    unfold _get_vol_target
    rw [h1, h2]
    norm_num [ROOT_BDAYS_INYEAR]

/-- Witness for C4: the scenario with `percentage_vol_target=10` and
`notional_trading_capital=1000000` passed, from an empty cache. -/
theorem daily_cash_vol_target_witness :
    ∃ vt : VolTargetDict,
      get_daily_cash_vol_target sysD subsysC emptyState
        = (Except.ok vt,
           set (bump emptyState "_vol_target" ALL_KEYNAME) "_vol_target" ALL_KEYNAME
             (CValue.vt vt))
      ∧ vt.annual_cash_vol_target
          = vt.notional_trading_capital * vt.percentage_vol_target / 100
      ∧ vt.daily_cash_vol_target = vt.annual_cash_vol_target / ROOT_BDAYS_INYEAR
      ∧ (subsysC.passed_percentage_vol_target = some 10 →
         subsysC.passed_notional_trading_capital = some 1000000 →
         vt.daily_cash_vol_target = 6250) :=
  daily_cash_vol_target_contents sysD subsysC emptyState rfl

/-- C5: each of the three parameters used by the vol-target compute
closure is exactly the spec's three-tier fallback (override, else
configuration, else compiled default) of its inputs; the fallback obeys
the three tier laws; and once the first access has cached the dict, a
later access — even under a different system configuration and different
constructor overrides — returns the originally resolved dict with the
state unchanged, so the fallback is not repeated. -/
theorem vol_target_three_tier_fallback (sys sys2 : Sys)
    (subsys subsys2 : PositionSizing) (st : CacheState)
    (h : st.store "_vol_target" ALL_KEYNAME = none) :
    (_get_vol_target sys subsys).percentage_vol_target
        = three_tier_fallback subsys.passed_percentage_vol_target
            sys.config.percentage_vol_target sys.defaults.percentage_vol_target
    ∧ (_get_vol_target sys subsys).notional_trading_capital
        = three_tier_fallback subsys.passed_notional_trading_capital
            sys.config.notional_trading_capital sys.defaults.notional_trading_capital
    ∧ (_get_vol_target sys subsys).base_currency
        = three_tier_fallback subsys.passed_base_currency
            sys.config.base_currency sys.defaults.base_currency
    ∧ (∀ (v : ℚ) (c : Except String ℚ) (d : ℚ), three_tier_fallback (some v) c d = v)
    ∧ (∀ (c : ℚ) (d : ℚ), three_tier_fallback none (Except.ok c) d = c)
    ∧ (∀ (e : String) (d : ℚ), three_tier_fallback none (Except.error e) d = d)
    ∧ get_daily_cash_vol_target sys2 subsys2
        ((get_daily_cash_vol_target sys subsys st).2)
      = ((get_daily_cash_vol_target sys subsys st).1,
         (get_daily_cash_vol_target sys subsys st).2) := by
  refine ⟨?_, ?_, ?_, fun v c d => rfl, fun c d => rfl, fun e d => rfl, ?_⟩
  · unfold _get_vol_target three_tier_fallback
    cases subsys.passed_percentage_vol_target with
    | some v => rfl
    | none => cases sys.config.percentage_vol_target <;> rfl
  · unfold _get_vol_target three_tier_fallback
    cases subsys.passed_notional_trading_capital with
    | some v => rfl
    | none => cases sys.config.notional_trading_capital <;> rfl
  · unfold _get_vol_target three_tier_fallback
    cases subsys.passed_base_currency with
    | some v => rfl
    | none => cases sys.config.base_currency <;> rfl
  · have h1 : get_daily_cash_vol_target sys subsys st
        = (Except.ok (_get_vol_target sys subsys),
           set (bump st "_vol_target" ALL_KEYNAME) "_vol_target" ALL_KEYNAME
             (CValue.vt (_get_vol_target sys subsys))) := by
      unfold get_daily_cash_vol_target asVT calc_or_cache vol_target_compute
      rw [h]
    rw [h1]
    unfold get_daily_cash_vol_target asVT calc_or_cache vol_target_compute
    rw [set_store_self]

/-- Witness for C5: first access with overrides `(10, 1000000)` under a
failing config; second access under a different system (missing FX data)
and no overrides still returns the originally cached dict. -/
theorem vol_target_three_tier_fallback_witness :
    (_get_vol_target sysD subsysC).percentage_vol_target
        = three_tier_fallback subsysC.passed_percentage_vol_target
            sysD.config.percentage_vol_target sysD.defaults.percentage_vol_target
    ∧ (_get_vol_target sysD subsysC).notional_trading_capital
        = three_tier_fallback subsysC.passed_notional_trading_capital
            sysD.config.notional_trading_capital sysD.defaults.notional_trading_capital
    ∧ (_get_vol_target sysD subsysC).base_currency
        = three_tier_fallback subsysC.passed_base_currency
            sysD.config.base_currency sysD.defaults.base_currency
    ∧ (∀ (v : ℚ) (c : Except String ℚ) (d : ℚ), three_tier_fallback (some v) c d = v)
    ∧ (∀ (c : ℚ) (d : ℚ), three_tier_fallback none (Except.ok c) d = c)
    ∧ (∀ (e : String) (d : ℚ), three_tier_fallback none (Except.error e) d = d)
    ∧ get_daily_cash_vol_target sysFail subsys0
        ((get_daily_cash_vol_target sysD subsysC emptyState).2)
      = ((get_daily_cash_vol_target sysD subsysC emptyState).1,
         (get_daily_cash_vol_target sysD subsysC emptyState).2) :=
  vol_target_three_tier_fallback sysD sysFail subsysC subsys0 emptyState rfl

/-- C6: the forward-fill pairings, each pinned by a concrete run whose
output would differ under any other flag pair: instrument "X" (price gap,
FX gap, full volatility) shows block value forward-filled into
`instrument_currency_vol` (`[100, NaN] ⊛ [0.01, 0.02] = [1.0, 2.0]`, the
spec's alignment law) and FX forward-filled into `instrument_value_vol`;
instrument "Y" (volatility gap, full price and FX) shows volatility NOT
filled, currency vol NOT filled, and the vol-scalar division not filling
(`[2, NaN] ↦ [3125, NaN]`). -/
theorem alignment_ffill_pairings :
    (get_block_value sysC6 subsysC "X" emptyState).1 = Except.ok [some 100, none]
    ∧ (get_instrument_currency_vol sysC6 subsysC "X" emptyState).1
        = Except.ok [some 1, some 2]
    ∧ (get_instrument_value_vol sysC6 subsysC "X" emptyState).1
        = Except.ok [some 2, some 4]
    ∧ (get_instrument_currency_vol sysC6 subsysC "Y" emptyState).1
        = Except.ok [some 1, none]
    ∧ (get_instrument_value_vol sysC6 subsysC "Y" emptyState).1
        = Except.ok [some 2, none]
    ∧ (get_volatility_scalar sysC6 subsysC "Y" emptyState).1
        = Except.ok [some 3125, none]
    ∧ (get_volatility_scalar sysC6 subsysC "X" emptyState).1
        = Except.ok [some 3125, some (3125/2)] := by
  refine ⟨by decide, by decide, by decide, by decide, by decide, by decide, by decide⟩

/-- C7: `get_subsys_position` returns `(volatility_scalar ⊛
combined_forecast) / average_absolute_forecast` with the scalar
forward-filled and the forecast not, cached per instrument under the
volatile `_subsys_position` attribute; on the spec's end-to-end scenario
(`instrument_value_vol = 5.97`, target 6250, forecast 7.62, divisor 10)
the scalar is `625000/597 ≈ 1046.9` and the position `158750/199 ≈
797.7`. -/
theorem subsys_position_formula (sys : Sys) (subsys : PositionSizing) (code : String)
    (st : CacheState) (vs fc : Series)
    (hsp : st.store "_subsys_position" code = none)
    (hvs : (get_volatility_scalar sys subsys code (bump st "_subsys_position" code)).1
        = Except.ok vs)
    (hfc : sys.combForecast_get_combined_forecast code = Except.ok fc) :
    get_subsys_position sys subsys code st
      = (Except.ok (series_div_scalar (multiply_df_single_column vs fc (true, false))
           sys.defaults.average_absolute_forecast),
         set (get_volatility_scalar sys subsys code (bump st "_subsys_position" code)).2
           "_subsys_position" code
           (CValue.ser (series_div_scalar (multiply_df_single_column vs fc (true, false))
             sys.defaults.average_absolute_forecast)))
    ∧ "_subsys_position" ∈ delete_on_recalc
    ∧ (get_volatility_scalar sysC7 subsysC "Z" emptyState).1
        = Except.ok [some (625000/597)]
    ∧ (get_subsys_position sysC7 subsysC "Z" emptyState).1
        = Except.ok [some (158750/199)] := by
  exact ⟨subsys_position_run sys subsys code st vs fc hsp hvs hfc,
    by decide, by decide, by decide⟩

/-- Witness for C7: the end-to-end scenario instantiated. -/
theorem subsys_position_formula_witness :
    get_subsys_position sysC7 subsysC "Z" emptyState
      = (Except.ok (series_div_scalar
           (multiply_df_single_column [some (625000/597)] [some (762/100)] (true, false))
           sysC7.defaults.average_absolute_forecast),
         set (get_volatility_scalar sysC7 subsysC "Z"
             (bump emptyState "_subsys_position" "Z")).2
           "_subsys_position" "Z"
           (CValue.ser (series_div_scalar
             (multiply_df_single_column [some (625000/597)] [some (762/100)] (true, false))
             sysC7.defaults.average_absolute_forecast)))
    ∧ "_subsys_position" ∈ delete_on_recalc
    ∧ (get_volatility_scalar sysC7 subsysC "Z" emptyState).1
        = Except.ok [some (625000/597)]
    ∧ (get_subsys_position sysC7 subsysC "Z" emptyState).1
        = Except.ok [some (158750/199)] :=
  subsys_position_formula sysC7 subsysC "Z" emptyState
    [some (625000/597)] [some (762/100)] rfl (by decide) rfl

/-- C8 counterexample: the three KEY INPUT accessors of the stage
(`get_combined_forecast`, `get_price_volatility`,
`get_instrument_sizing_data` — exactly the methods the claim cites)
return successfully on a concrete system yet leave the cache state
bit-for-bit unchanged: no compute closure, no calc-or-cache delegation,
no cache attribute stores their result. -/
theorem uncached_accessors_counterexample :
    (get_combined_forecast sysD "EDOLLAR" emptyState).1 = Except.ok [some 10]
    ∧ (get_combined_forecast sysD "EDOLLAR" emptyState).2 = emptyState
    ∧ (get_price_volatility sysD "EDOLLAR" emptyState).1 = Except.ok [some (1/100)]
    ∧ (get_price_volatility sysD "EDOLLAR" emptyState).2 = emptyState
    ∧ (get_instrument_sizing_data sysD "EDOLLAR" emptyState).2 = emptyState :=
  ⟨rfl, rfl, rfl, rfl, rfl⟩

/-- C8 amended: the seven derived-quantity accessors
(`get_daily_cash_vol_target`, `get_fx_rate`, `get_block_value`,
`get_instrument_currency_vol`, `get_instrument_value_vol`,
`get_volatility_scalar`, `get_subsys_position`) each delegate to the
calc-or-cache resolver with their own attribute name: a successful access
leaves the result stored under that attribute and a repeated access
returns the stored value with the state unchanged.  (The three KEY INPUT
pass-throughs delegate directly to sibling stages with no cache
attribute of their own.) -/
theorem cached_accessors_store_under_own_attribute (sys : Sys)
    (subsys : PositionSizing) (code : String) (st st2 : CacheState) :
    (∀ v, get_daily_cash_vol_target sys subsys st = (Except.ok v, st2) →
        st2.store "_vol_target" ALL_KEYNAME = some (CValue.vt v)
        ∧ get_daily_cash_vol_target sys subsys st2 = (Except.ok v, st2))
    ∧ (∀ s, get_fx_rate sys subsys code st = (Except.ok s, st2) →
        st2.store "_fx_rate" code = some (CValue.ser s)
        ∧ get_fx_rate sys subsys code st2 = (Except.ok s, st2))
    ∧ (∀ s, get_block_value sys subsys code st = (Except.ok s, st2) →
        st2.store "_block_value" code = some (CValue.ser s)
        ∧ get_block_value sys subsys code st2 = (Except.ok s, st2))
    ∧ (∀ s, get_instrument_currency_vol sys subsys code st = (Except.ok s, st2) →
        st2.store "_instrument_currency_vol" code = some (CValue.ser s)
        ∧ get_instrument_currency_vol sys subsys code st2 = (Except.ok s, st2))
    ∧ (∀ s, get_instrument_value_vol sys subsys code st = (Except.ok s, st2) →
        st2.store "_instrument_value_vol" code = some (CValue.ser s)
        ∧ get_instrument_value_vol sys subsys code st2 = (Except.ok s, st2))
    ∧ (∀ s, get_volatility_scalar sys subsys code st = (Except.ok s, st2) →
        st2.store "_vol_scalar" code = some (CValue.ser s)
        ∧ get_volatility_scalar sys subsys code st2 = (Except.ok s, st2))
    ∧ (∀ s, get_subsys_position sys subsys code st = (Except.ok s, st2) →
        st2.store "_subsys_position" code = some (CValue.ser s)
        ∧ get_subsys_position sys subsys code st2 = (Except.ok s, st2)) :=
  ⟨fun v h => asVT_calc_round _ _ _ _ _ v h,
   fun s h => asSer_calc_round _ _ _ _ _ s h,
   fun s h => asSer_calc_round _ _ _ _ _ s h,
   fun s h => asSer_calc_round _ _ _ _ _ s h,
   fun s h => asSer_calc_round _ _ _ _ _ s h,
   fun s h => asSer_calc_round _ _ _ _ _ s h,
   fun s h => asSer_calc_round _ _ _ _ _ s h⟩

/-- Witness for the amended C8: the `_vol_target` conjunct applied to a
concrete first access on the diamond scenario. -/
theorem cached_accessors_witness :
    (set (bump emptyState "_vol_target" ALL_KEYNAME) "_vol_target" ALL_KEYNAME
        (CValue.vt (_get_vol_target sysD subsys0))).store "_vol_target" ALL_KEYNAME
      = some (CValue.vt (_get_vol_target sysD subsys0))
    ∧ get_daily_cash_vol_target sysD subsys0
        (set (bump emptyState "_vol_target" ALL_KEYNAME) "_vol_target" ALL_KEYNAME
          (CValue.vt (_get_vol_target sysD subsys0)))
      = (Except.ok (_get_vol_target sysD subsys0),
         set (bump emptyState "_vol_target" ALL_KEYNAME) "_vol_target" ALL_KEYNAME
          (CValue.vt (_get_vol_target sysD subsys0))) :=
  (cached_accessors_store_under_own_attribute sysD subsys0 "EDOLLAR" emptyState
    (set (bump emptyState "_vol_target" ALL_KEYNAME) "_vol_target" ALL_KEYNAME
      (CValue.vt (_get_vol_target sysD subsys0)))).1
    (_get_vol_target sysD subsys0) rfl

/-- C9: the configuration tier of `_get_vol_target` never propagates a
failure: with no constructor overrides, if every configuration read
raises (any exception payloads `e1`, `e2`, `e3` — the bare `except:`
catches them all), the compiled defaults are used for all three
parameters and `get_daily_cash_vol_target` still succeeds. -/
theorem config_failure_falls_back_to_defaults (sys : Sys) (subsys : PositionSizing)
    (st : CacheState) (e1 e2 e3 : String)
    (hp : subsys.passed_percentage_vol_target = none)
    (hn : subsys.passed_notional_trading_capital = none)
    (hb : subsys.passed_base_currency = none)
    (h1 : sys.config.percentage_vol_target = Except.error e1)
    (h2 : sys.config.notional_trading_capital = Except.error e2)
    (h3 : sys.config.base_currency = Except.error e3)
    (hst : st.store "_vol_target" ALL_KEYNAME = none) :
    (_get_vol_target sys subsys).percentage_vol_target
        = sys.defaults.percentage_vol_target
    ∧ (_get_vol_target sys subsys).notional_trading_capital
        = sys.defaults.notional_trading_capital
    ∧ (_get_vol_target sys subsys).base_currency = sys.defaults.base_currency
    ∧ (get_daily_cash_vol_target sys subsys st).1
        = Except.ok (_get_vol_target sys subsys) := by
  refine ⟨?_, ?_, ?_, ?_⟩
  · simp [_get_vol_target, hp, h1]
  · simp [_get_vol_target, hn, h2]
  · simp [_get_vol_target, hb, h3]
  · unfold get_daily_cash_vol_target asVT calc_or_cache vol_target_compute
    rw [hst]

/-- Witness for C9: the scenario whose config raises "no parameters" on
every read resolves all three parameters to the compiled defaults. -/
theorem config_failure_witness :
    (_get_vol_target sysD subsys0).percentage_vol_target
        = sysD.defaults.percentage_vol_target
    ∧ (_get_vol_target sysD subsys0).notional_trading_capital
        = sysD.defaults.notional_trading_capital
    ∧ (_get_vol_target sysD subsys0).base_currency = sysD.defaults.base_currency
    ∧ (get_daily_cash_vol_target sysD subsys0 emptyState).1
        = Except.ok (_get_vol_target sysD subsys0) :=
  config_failure_falls_back_to_defaults sysD subsys0 emptyState
    "no parameters" "no parameters" "no parameters"
    rfl rfl rfl rfl rfl rfl rfl

/-- C10: the average-absolute-forecast divisor of `get_subsys_position`
is read from the compiled defaults only: replacing the configuration's
`average_absolute_forecast` entry by anything changes nothing in the
accessor's behaviour, and for every system and every constructor
override the divisor in the result is `sys.defaults
.average_absolute_forecast`. -/
theorem average_absolute_forecast_from_defaults_only (sys : Sys)
    (subsys : PositionSizing) (code : String) (st : CacheState)
    (c : Except String ℚ) (vs fc : Series)
    (hsp : st.store "_subsys_position" code = none)
    (hvs : (get_volatility_scalar sys subsys code (bump st "_subsys_position" code)).1
        = Except.ok vs)
    (hfc : sys.combForecast_get_combined_forecast code = Except.ok fc) :
    get_subsys_position (set_config_avg_abs sys c) subsys code st
        = get_subsys_position sys subsys code st
    ∧ (get_subsys_position sys subsys code st).1
        = Except.ok (series_div_scalar (multiply_df_single_column vs fc (true, false))
            sys.defaults.average_absolute_forecast) := by
  constructor
  · rfl
  · rw [subsys_position_run sys subsys code st vs fc hsp hvs hfc]

/-- Witness for C10: overwriting the configuration's
`average_absolute_forecast` with 999 leaves the end-to-end scenario's
subsystem position untouched; the divisor is the compiled default. -/
theorem average_absolute_forecast_witness :
    get_subsys_position (set_config_avg_abs sysC7 (Except.ok 999)) subsysC "Z" emptyState
        = get_subsys_position sysC7 subsysC "Z" emptyState
    ∧ (get_subsys_position sysC7 subsysC "Z" emptyState).1
        = Except.ok (series_div_scalar
            (multiply_df_single_column [some (625000/597)] [some (762/100)] (true, false))
            sysC7.defaults.average_absolute_forecast) :=
  average_absolute_forecast_from_defaults_only sysC7 subsysC "Z" emptyState
    (Except.ok 999) [some (625000/597)] [some (762/100)] rfl (by decide) rfl

end PySys
